import Mathlib

/-!
# Verification of the PulseAudio JACK bridge module (module-jack.c)

Shallow embedding of the bridge's data model and message handlers, and
theorems settling the spec claims against it.  Machine integers
(`jack_nframes_t`, `pa_usec_t`, `size_t`) are modelled as `Nat`; the C
code never relies on wraparound on the paths embedded here (every
subtraction in the source is guarded by an explicit comparison, which we
mirror).  Nullable pointers are modelled as `Option`, sample buffers as
`List Int` (no arithmetic is ever performed on samples, only copying and
zero fill, so the exact sample type is irrelevant).
-/

namespace ModuleJack

/-! ## Common host helpers (pulse/pulsecore contract, referenced by the module) -/

/-- `pa_bytes_to_usec(length, ss)`: `length / frame_size * PA_USEC_PER_SEC / rate`. -/
def pa_bytes_to_usec (length frameSize rate : Nat) : Nat :=
  length / frameSize * 1000000 / rate

/-- `pa_strnull`: maps a NULL C string to the literal `"(null)"`. -/
def pa_strnull : Option String → String
  | some s => s
  | none => "(null)"

/-! ## Latency accounting state (fields of `struct sCard` read by GET_LATENCY) -/

/-- The slice of `struct sCard` (plus `base->stoped`) that the
`GET_LATENCY` handlers read.  `jack : Option Unit` is the external
client handle (`none` = NULL). -/
structure LatencyCard where
  stoped : Bool
  jack : Option Unit
  saved_frame_time : Nat
  saved_frame_time_valid : Bool
  frames_in_buffer : Nat
  sink_timestamp : Nat
  source_timestamp : Nat
deriving Repr, DecidableEq

/-- `PA_SINK_MESSAGE_GET_LATENCY` branch of `sink_process_msg`
(module-jack.c:264-296).  `r_max` is the value filled in by
`jack_port_get_latency_range(card->sink_port[0], JackPlaybackLatency, &r)`,
`ft` the value `jack_frame_time(card->jack)` would return, `now` the value
of `pa_rtclock_now()`.  Note the source guards the elapsed-frames
adjustment with `card->saved_frame_time_valid && (!card->jack)`. -/
def sink_get_latency (card : LatencyCard) (r_max ft now frameSize rate : Nat) : Nat :=
  if !card.stoped then
    let l := r_max + card.frames_in_buffer
    let l :=
      if card.saved_frame_time_valid && card.jack.isNone then
        let d := if ft > card.saved_frame_time then ft - card.saved_frame_time else 0
        if l > d then l - d else 0
      else l
    pa_bytes_to_usec (l * frameSize) frameSize rate
  else
    if card.sink_timestamp > now then card.sink_timestamp - now else 0

/-- `PA_SOURCE_MESSAGE_GET_LATENCY` branch of `source_process_msg`
(module-jack.c:172-204).  `r_max` comes from
`jack_port_get_latency_range(card->source_port[0], JackCaptureLatency, &r)`. -/
def source_get_latency (card : LatencyCard) (r_max ft now frameSize rate : Nat) : Nat :=
  if !card.stoped then
    let l := r_max
    let l :=
      if card.saved_frame_time_valid then
        l + (if ft > card.saved_frame_time then ft - card.saved_frame_time else 0)
      else l
    pa_bytes_to_usec (l * frameSize) frameSize rate
  else
    if card.source_timestamp > now then card.source_timestamp - now else 0

end ModuleJack

namespace ModuleJack

/-! ## C1: sink GET_LATENCY elapsed-frame adjustment -/

/-- The latency the claim (spec §4.6) prescribes for a sink while not
stopped with `saved_frame_time_valid`: `r.max + frames_in_buffer` minus
the elapsed frames, each subtraction clamped at 0, converted via
`pa_bytes_to_usec`. -/
def sink_latency_claimed (card : LatencyCard) (r_max ft frameSize rate : Nat) : Nat :=
  let d := if ft > card.saved_frame_time then ft - card.saved_frame_time else 0
  let l := r_max + card.frames_in_buffer
  pa_bytes_to_usec ((if l > d then l - d else 0) * frameSize) frameSize rate

/-- A concrete card in the C1 failing scenario: bridge running, frame
time snapshot valid, external client handle live. -/
def c1Card : LatencyCard :=
  { stoped := false, jack := some (), saved_frame_time := 0,
    saved_frame_time_valid := true, frames_in_buffer := 256,
    sink_timestamp := 0, source_timestamp := 0 }

end ModuleJack

/-- C1: with the bridge not stopped, `saved_frame_time_valid = true` and a
live client handle, 100 frames elapsed since `saved_frame_time`, the code
reports `bytes_to_usec((r.max + frames_in_buffer) * framesize)` without
subtracting the elapsed frames, while the claim demands
`bytes_to_usec((r.max + frames_in_buffer - elapsed) * framesize)`; the two
differ.  The source's adjustment is gated on `!card->jack`, so with a live
handle it never runs (and when it would run, `jack_frame_time` would be
called on a NULL handle). -/
theorem C1_sink_latency_not_adjusted :
    ModuleJack.sink_get_latency ModuleJack.c1Card 256 100 0 8 48000
      = ModuleJack.pa_bytes_to_usec ((256 + 256) * 8) 8 48000
    ∧ ModuleJack.sink_latency_claimed ModuleJack.c1Card 256 100 8 48000
      = ModuleJack.pa_bytes_to_usec ((256 + 256 - 100) * 8) 8 48000
    ∧ ModuleJack.sink_get_latency ModuleJack.c1Card 256 100 0 8 48000
      ≠ ModuleJack.sink_latency_claimed ModuleJack.c1Card 256 100 8 48000 := by
  refine ⟨rfl, rfl, ?_⟩
  decide

/-- C7: while the bridge is stopped, sink and source GET_LATENCY both
return `max(0, saved_ts - now)`, the saved timestamp minus the current
time clamped at zero. -/
theorem C7_frozen_latency (card : ModuleJack.LatencyCard)
    (r_max ft now frameSize rate : Nat) (h : card.stoped = true) :
    (ModuleJack.sink_get_latency card r_max ft now frameSize rate : Int)
        = max 0 ((card.sink_timestamp : Int) - now)
    ∧ (ModuleJack.source_get_latency card r_max ft now frameSize rate : Int)
        = max 0 ((card.source_timestamp : Int) - now) := by
  unfold ModuleJack.sink_get_latency ModuleJack.source_get_latency
  rw [h]
  simp only [Bool.not_true, Bool.false_eq_true, if_false]
  constructor
  · by_cases hgt : card.sink_timestamp > now
    · rw [if_pos hgt]
      have : (0 : Int) ≤ (card.sink_timestamp : Int) - now := by
        omega
      rw [max_eq_right this]
      omega
    · rw [if_neg hgt]
      have : (card.sink_timestamp : Int) - now ≤ 0 := by omega
      rw [max_eq_left this]
      simp
  · by_cases hgt : card.source_timestamp > now
    · rw [if_pos hgt]
      have : (0 : Int) ≤ (card.source_timestamp : Int) - now := by
        omega
      rw [max_eq_right this]
      omega
    · rw [if_neg hgt]
      have : (card.source_timestamp : Int) - now ≤ 0 := by omega
      rw [max_eq_left this]
      simp

/-- Witness for C7 at a concrete stopped card. -/
theorem C7_frozen_latency_witness :
    (ModuleJack.sink_get_latency
        { stoped := true, jack := none, saved_frame_time := 0,
          saved_frame_time_valid := true, frames_in_buffer := 0,
          sink_timestamp := 700, source_timestamp := 300 } 0 0 100 8 48000 : Int)
      = max 0 ((700 : Int) - 100)
    ∧ (ModuleJack.source_get_latency
        { stoped := true, jack := none, saved_frame_time := 0,
          saved_frame_time_valid := true, frames_in_buffer := 0,
          sink_timestamp := 700, source_timestamp := 300 } 0 0 100 8 48000 : Int)
      = max 0 ((300 : Int) - 100) :=
  C7_frozen_latency
    { stoped := true, jack := none, saved_frame_time := 0,
      saved_frame_time_valid := true, frames_in_buffer := 0,
      sink_timestamp := 700, source_timestamp := 300 } 0 0 100 8 48000 rfl

namespace ModuleJack

/-! ## Sample pump: sink RENDER handler (module-jack.c:213-252) -/

/-- `pa_deinterleave(src, dst, channels, ss, n)`: channel `c` of the
destination receives the samples `src[j*channels + c]` for `j < n`. -/
def pa_deinterleave (src : List Int) (channels n : Nat) : List (List Int) :=
  (List.range channels).map fun c =>
    (List.range n).map fun j => src.getD (j * channels + c) 0

/-- The slice of `struct sCard` that the `SINK_MESSAGE_RENDER` handler
touches.  `running` is `sink->thread_info.state == PA_SINK_RUNNING`,
`rewind_requested` is `sink->thread_info.rewind_requested`,
`sink_buffer` the per-channel scratch buffers. -/
structure RenderCard where
  running : Bool
  stoped : Bool
  rewind_requested : Bool
  sink_channels : Nat
  sink_buffer : List (List Int)
  frames_in_buffer : Nat
  saved_frame_time : Nat
  saved_frame_time_valid : Bool
  sink_timestamp : Nat
deriving Repr, DecidableEq

/-- `SINK_MESSAGE_RENDER` branch of `sink_process_msg`.  `nframes` is the
message `offset`, `frameTime` the `jack_nframes_t` pointed to by `data`,
`now` the value of `pa_rtclock_now()`.  `render rw nbytes` is the host
oracle `pa_sink_render_full` called for `nbytes` bytes while
`thread_info.rewind_requested = rw`; the source saves the flag, clears
it, renders, and restores it, so the oracle is invoked with `false` and
the post-state keeps the pre-call flag.  In the non-running (or stopped)
branch the source writes `nframes` samples of silence into each scratch
buffer and leaves `sink_timestamp` untouched. -/
def sink_message_render (card : RenderCard) (nframes frameTime now frameSize : Nat)
    (render : Bool → Nat → List Int) : RenderCard :=
  let card :=
    if card.running && !card.stoped then
      let chunk := render false (nframes * frameSize)
      { card with
          sink_buffer := pa_deinterleave chunk card.sink_channels nframes,
          sink_timestamp := now }
    else
      { card with
          sink_buffer := List.replicate card.sink_channels (List.replicate nframes 0) }
  { card with
      frames_in_buffer := nframes,
      saved_frame_time := frameTime,
      saved_frame_time_valid := true }

/-! ## Sample pump: source POST handler (module-jack.c:153-164) -/

/-- The slice of `struct sCard` that the `SOURCE_MESSAGE_POST` handler
touches.  `posted` records the chunks handed to `pa_source_post`, in
order. -/
structure PostCard where
  running : Bool
  posted : List (List Int)
  saved_frame_time : Nat
  saved_frame_time_valid : Bool
  source_timestamp : Nat
deriving Repr, DecidableEq

/-- `SOURCE_MESSAGE_POST` branch of `source_process_msg`.  `chunk` is the
message chunk (asserted non-empty by the source), `offset` the message
offset (the external frame time at capture), `now` the value of
`pa_rtclock_now()`. -/
def source_message_post (card : PostCard) (chunk : List Int) (offset now : Nat) : PostCard :=
  let card :=
    if card.running then { card with posted := card.posted ++ [chunk] } else card
  { card with
      saved_frame_time := offset,
      saved_frame_time_valid := true,
      source_timestamp := now }

/-- A concrete card for the C2 counterexample: sink not RUNNING,
`sink_timestamp` previously 5. -/
def c2Card : RenderCard :=
  { running := false, stoped := false, rewind_requested := true,
    sink_channels := 2, sink_buffer := [[7], [8]], frames_in_buffer := 1,
    saved_frame_time := 3, saved_frame_time_valid := false, sink_timestamp := 5 }

end ModuleJack

/-- C2 counterexample: on a RENDER message with `nframes = 4 > 0` to a
sink that is not RUNNING, the handler does not record
`sink_ts = now()` — `sink_timestamp` stays at its old value 5 instead of
becoming 99 — refuting the claim that `sink_ts = now()` is recorded in
both cases. -/
theorem C2_render_counterexample :
    (ModuleJack.sink_message_render ModuleJack.c2Card 4 17 99 8
        (fun _ n => List.replicate n 1)).sink_timestamp = 5
    ∧ (5 : Nat) ≠ 99 := by
  constructor
  · rfl
  · decide

/-- C2 (amended): on a RENDER message with `nframes > 0`, if the sink is
RUNNING and the bridge is not stopped the handler renders
`nframes * framesize` bytes from the host (with the rewind flag cleared
for the duration of the render), deinterleaves them into the per-channel
scratch buffers, leaves `rewind_requested` at its pre-call value and sets
`sink_ts = now()`; otherwise it writes `nframes` frames of silence into
the scratch buffers and leaves `sink_ts` unchanged; in both cases it then
records `frames_in_buffer = nframes`, `saved_frame_time = *frame_time`
and `saved_frame_time_valid = true`. -/
theorem C2_render_amended (card : ModuleJack.RenderCard)
    (nframes frameTime now frameSize : Nat) (render : Bool → Nat → List Int)
    (hn : 0 < nframes) :
    (ModuleJack.sink_message_render card nframes frameTime now frameSize render
      = if card.running && !card.stoped then
          { card with
              sink_buffer :=
                ModuleJack.pa_deinterleave (render false (nframes * frameSize))
                  card.sink_channels nframes,
              sink_timestamp := now,
              frames_in_buffer := nframes,
              saved_frame_time := frameTime,
              saved_frame_time_valid := true }
        else
          { card with
              sink_buffer :=
                List.replicate card.sink_channels (List.replicate nframes 0),
              frames_in_buffer := nframes,
              saved_frame_time := frameTime,
              saved_frame_time_valid := true })
    ∧ (ModuleJack.sink_message_render card nframes frameTime now frameSize
         render).rewind_requested = card.rewind_requested := by
  unfold ModuleJack.sink_message_render
  by_cases h : card.running && !card.stoped
  · rw [if_pos h, if_pos h]
    exact ⟨rfl, rfl⟩
  · rw [if_neg h, if_neg h]
    exact ⟨rfl, rfl⟩

/-- Witness for C2 (amended) at a concrete running card. -/
theorem C2_render_amended_witness :
    0 < 4
    ∧ ((ModuleJack.sink_message_render
          { running := true, stoped := false, rewind_requested := true,
            sink_channels := 2, sink_buffer := [], frames_in_buffer := 0,
            saved_frame_time := 0, saved_frame_time_valid := false,
            sink_timestamp := 0 } 4 17 99 8 (fun _ n => List.replicate n 1)
        = if (true : Bool) && !(false : Bool) then
            { running := true, stoped := false, rewind_requested := true,
              sink_channels := 2,
              sink_buffer :=
                ModuleJack.pa_deinterleave (List.replicate (4 * 8) (1 : Int)) 2 4,
              frames_in_buffer := 4, saved_frame_time := 17,
              saved_frame_time_valid := true, sink_timestamp := 99 }
          else
            { running := true, stoped := false, rewind_requested := true,
              sink_channels := 2,
              sink_buffer := List.replicate 2 (List.replicate 4 (0 : Int)),
              frames_in_buffer := 4, saved_frame_time := 17,
              saved_frame_time_valid := true, sink_timestamp := 0 })
      ∧ (ModuleJack.sink_message_render
          { running := true, stoped := false, rewind_requested := true,
            sink_channels := 2, sink_buffer := [], frames_in_buffer := 0,
            saved_frame_time := 0, saved_frame_time_valid := false,
            sink_timestamp := 0 } 4 17 99 8
            (fun _ n => List.replicate n 1)).rewind_requested = true) :=
  ⟨by decide,
   C2_render_amended
     { running := true, stoped := false, rewind_requested := true,
       sink_channels := 2, sink_buffer := [], frames_in_buffer := 0,
       saved_frame_time := 0, saved_frame_time_valid := false,
       sink_timestamp := 0 } 4 17 99 8 (fun _ n => List.replicate n 1)
     (by decide)⟩

/-- C8: on a POST message with a non-empty chunk, the chunk is handed to
`pa_source_post` if and only if the source is RUNNING (appended to the
delivered sequence), and in all cases `saved_frame_time` is set to the
message offset, `saved_frame_time_valid` to true and `source_ts` to
`now()`. -/
theorem C8_source_post (card : ModuleJack.PostCard) (chunk : List Int)
    (offset now : Nat) (hc : chunk ≠ []) :
    (ModuleJack.source_message_post card chunk offset now).posted
        = (if card.running then card.posted ++ [chunk] else card.posted)
    ∧ (ModuleJack.source_message_post card chunk offset now).saved_frame_time = offset
    ∧ (ModuleJack.source_message_post card chunk offset now).saved_frame_time_valid = true
    ∧ (ModuleJack.source_message_post card chunk offset now).source_timestamp = now := by
  unfold ModuleJack.source_message_post
  by_cases h : card.running
  · rw [if_pos h, if_pos h]
    exact ⟨rfl, rfl, rfl, rfl⟩
  · rw [if_neg h, if_neg h]
    exact ⟨rfl, rfl, rfl, rfl⟩

/-- Witness for C8 at a concrete running source card. -/
theorem C8_source_post_witness :
    (ModuleJack.source_message_post
        { running := true, posted := [], saved_frame_time := 0,
          saved_frame_time_valid := false, source_timestamp := 0 }
        [1, 2] 17 99).posted
      = (if (true : Bool) then ([] : List (List Int)) ++ [[1, 2]] else [])
    ∧ (ModuleJack.source_message_post
        { running := true, posted := [], saved_frame_time := 0,
          saved_frame_time_valid := false, source_timestamp := 0 }
        [1, 2] 17 99).saved_frame_time = 17
    ∧ (ModuleJack.source_message_post
        { running := true, posted := [], saved_frame_time := 0,
          saved_frame_time_valid := false, source_timestamp := 0 }
        [1, 2] 17 99).saved_frame_time_valid = true
    ∧ (ModuleJack.source_message_post
        { running := true, posted := [], saved_frame_time := 0,
          saved_frame_time_valid := false, source_timestamp := 0 }
        [1, 2] 17 99).source_timestamp = 99 :=
  C8_source_post
    { running := true, posted := [], saved_frame_time := 0,
      saved_frame_time_valid := false, source_timestamp := 0 }
    [1, 2] 17 99 (by decide)

namespace ModuleJack

/-! ## External process callback (module-jack.c:302-335) -/

/-- An access to the external library made by `jack_process`:
`portGetBuffer h` is `jack_port_get_buffer` on the port handle `h`
(always non-NULL in the source, because each call sits under
`if (card->sink_port[c])` / `if (card->source_port[c])`), and
`frameTime h` is `jack_frame_time(card->jack)` with `h` the handle
passed — the source performs it with no NULL check. -/
inductive ExtAccess where
  | portGetBuffer (port : Option Unit)
  | frameTime (handle : Option Unit)
deriving Repr, DecidableEq

/-- The slice of `struct sCard` that `jack_process` reads.  `hasSink` /
`hasSource` model the `card->sink` / `card->source` pointers being
non-NULL; the port arrays hold nullable port handles. -/
structure ProcessCard where
  jack : Option Unit
  hasSink : Bool
  sink_channels : Nat
  sink_port : List (Option Unit)
  hasSource : Bool
  source_channels : Nat
  source_port : List (Option Unit)
deriving Repr, DecidableEq

/-- The port-buffer accesses of one direction's loop
`for (c = 0; c < channels; c++) if (port[c]) jack_port_get_buffer(port[c], nframes)`. -/
def port_buffer_accesses (ports : List (Option Unit)) (channels : Nat) : List ExtAccess :=
  ((ports.take channels).filter Option.isSome).map ExtAccess.portGetBuffer

/-- The sequence of external-library accesses `jack_process` performs on
`card`: for a present sink, the guarded per-port buffer fetches followed
by `jack_frame_time(card->jack)` (before the synchronous RENDER send);
for a present source, the guarded per-port buffer fetches followed by
`jack_frame_time(card->jack)` (before the asynchronous POST). -/
def jack_process_accesses (card : ProcessCard) : List ExtAccess :=
  (if card.hasSink then
     port_buffer_accesses card.sink_port card.sink_channels
       ++ [ExtAccess.frameTime card.jack]
   else [])
  ++
  (if card.hasSource then
     port_buffer_accesses card.source_port card.source_channels
       ++ [ExtAccess.frameTime card.jack]
   else [])

/-- A concrete card for the C3 counterexample: the shutdown callback has
nulled the client handle, the card has a sink with one registered port
(shutdown nulls only `refCard->jack`, never the port array). -/
def c3Card : ProcessCard :=
  { jack := none, hasSink := true, sink_channels := 1,
    sink_port := [some ()], hasSource := false,
    source_channels := 0, source_port := [] }

end ModuleJack

/-- C3 counterexample: after the shutdown callback has nulled the client
handle (`jack = none`), a late `jack_process` call on a card with a sink
still queries the frame clock on the NULL handle and still fetches the
port buffer — refuting the claim that every port access and the
frame-time query are guarded by `card.jack != null` and that no such
access occurs. -/
theorem C3_late_process_counterexample :
    ModuleJack.c3Card.jack = none
    ∧ ModuleJack.ExtAccess.frameTime none
        ∈ ModuleJack.jack_process_accesses ModuleJack.c3Card
    ∧ ModuleJack.ExtAccess.portGetBuffer (some ())
        ∈ ModuleJack.jack_process_accesses ModuleJack.c3Card := by
  refine ⟨rfl, ?_, ?_⟩ <;> decide

/-- C3 (amended): in `jack_process`, port-buffer accesses are guarded
only by the individual port handle being non-NULL (every
`portGetBuffer` access in the trace carries a non-NULL port, regardless
of `card.jack`), while the frame-time query is not guarded at all: it is
performed on `card.jack` — even when that handle is NULL — whenever the
card has a sink or a source. -/
theorem C3_access_guards_amended (card : ModuleJack.ProcessCard)
    (h : card.hasSink = true ∨ card.hasSource = true) :
    (∀ p, ModuleJack.ExtAccess.portGetBuffer p
        ∈ ModuleJack.jack_process_accesses card → p.isSome)
    ∧ ModuleJack.ExtAccess.frameTime card.jack
        ∈ ModuleJack.jack_process_accesses card := by
  constructor
  · intro p hp
    unfold ModuleJack.jack_process_accesses at hp
    rw [List.mem_append] at hp
    have key : ∀ ports channels,
        ModuleJack.ExtAccess.portGetBuffer p
          ∈ ModuleJack.port_buffer_accesses ports channels → p.isSome := by
      intro ports channels hmem
      unfold ModuleJack.port_buffer_accesses at hmem
      rw [List.mem_map] at hmem
      obtain ⟨q, hq, hqe⟩ := hmem
      rw [List.mem_filter] at hq
      cases hqe
      exact hq.2
    rcases hp with hp | hp
    · by_cases hs : card.hasSink
      · rw [if_pos hs] at hp
        rw [List.mem_append] at hp
        rcases hp with hp | hp
        · exact key _ _ hp
        · simp at hp
      · rw [if_neg hs] at hp
        simp at hp
    · by_cases hs : card.hasSource
      · rw [if_pos hs] at hp
        rw [List.mem_append] at hp
        rcases hp with hp | hp
        · exact key _ _ hp
        · simp at hp
      · rw [if_neg hs] at hp
        simp at hp
  · unfold ModuleJack.jack_process_accesses
    rw [List.mem_append]
    rcases h with h | h
    · left
      rw [if_pos h, List.mem_append]
      right
      exact List.mem_singleton.mpr rfl
    · right
      rw [if_pos h, List.mem_append]
      right
      exact List.mem_singleton.mpr rfl

/-- Witness for C3 (amended) at a card with a sink and a live handle. -/
theorem C3_access_guards_amended_witness :
    (∀ p, ModuleJack.ExtAccess.portGetBuffer p
        ∈ ModuleJack.jack_process_accesses
            { jack := some (), hasSink := true, sink_channels := 2,
              sink_port := [some (), none], hasSource := false,
              source_channels := 0, source_port := [] } → p.isSome)
    ∧ ModuleJack.ExtAccess.frameTime (some ())
        ∈ ModuleJack.jack_process_accesses
            { jack := some (), hasSink := true, sink_channels := 2,
              sink_port := [some (), none], hasSource := false,
              source_channels := 0, source_port := [] } :=
  C3_access_guards_amended
    { jack := some (), hasSink := true, sink_channels := 2,
      sink_port := [some (), none], hasSource := false,
      source_channels := 0, source_port := [] }
    (Or.inl rfl)

namespace ModuleJack

/-! ## Shutdown and recovery (module-jack.c:389-404, 905-925) -/

/-- The bridge-manager state the shutdown/recovery steps touch:
`stoped` is `base->stoped`, `cards` records, per card, whether its
external client handle `card->jack` is non-NULL, `recoverAt` the armed
time of `base->recover_event` (`none` = disarmed). -/
structure BridgeState where
  stoped : Bool
  cards : List Bool
  recoverAt : Option Nat
deriving Repr, DecidableEq

/-- `jack_shutdown`: sets `base->stoped = true`, nulls every card's
`jack` handle, and restarts the recover timer at `now + PA_USEC_PER_SEC`. -/
def jack_shutdown (now : Nat) (s : BridgeState) : BridgeState :=
  { stoped := true,
    cards := s.cards.map fun _ => false,
    recoverAt := some (now + 1000000) }

/-- The card loop of `recover_cb`: for each card in order,
`create_jack(card, false)` succeeds immediately when `card->jack` is
already non-NULL and otherwise attempts `jack_client_open` (outcome given
by the oracle `opens` at the card's position); on the first failure the
loop stops, leaving the remaining cards untouched.  Returns the updated
handle list and whether every card succeeded. -/
def recover_cards (opens : Nat → Bool) : Nat → List Bool → List Bool × Bool
  | _, [] => ([], true)
  | i, c :: cs =>
    if c || opens i then
      let r := recover_cards opens (i + 1) cs
      (true :: r.1, r.2)
    else (c :: cs, false)

/-- `recover_cb`: disarms the recover timer, returns at once if the
bridge is not stopped; otherwise runs the card loop — if any open fails
it re-arms the timer at `now + 5 * PA_USEC_PER_SEC` and leaves `stoped`
untouched, and only if every card's client is (re)opened does it set
`stoped = false`. -/
def recover_cb (opens : Nat → Bool) (now : Nat) (s : BridgeState) : BridgeState :=
  if !s.stoped then { s with recoverAt := none }
  else
    let r := recover_cards opens 0 s.cards
    if r.2 then { s with cards := r.1, stoped := false, recoverAt := none }
    else { s with cards := r.1, recoverAt := some (now + 5 * 1000000) }

/-- States reachable by the step operations of the claim: module init
(all clients open, not stopped), external shutdown, recovery attempts. -/
inductive Reachable : BridgeState → Prop where
  | init (n : Nat) :
      Reachable { stoped := false, cards := List.replicate n true, recoverAt := none }
  | shutdown (now : Nat) {s : BridgeState} :
      Reachable s → Reachable (jack_shutdown now s)
  | recover (opens : Nat → Bool) (now : Nat) {s : BridgeState} :
      Reachable s → Reachable (recover_cb opens now s)

/-- The C4 bad state: two cards, shutdown at time 0, then a recovery
attempt at time 10⁶ in which the first card's open succeeds and the
second fails. -/
def c4BadState : BridgeState :=
  recover_cb (fun i => i == 0) 1000000
    (jack_shutdown 0 { stoped := false, cards := [true, true], recoverAt := none })

/-- If the `recover_cb` card loop reports overall success, every handle
in the returned list is non-NULL. -/
theorem recover_cards_all_open (opens : Nat → Bool) :
    ∀ (i : Nat) (cs : List Bool), (recover_cards opens i cs).2 = true →
      ∀ c ∈ (recover_cards opens i cs).1, c = true := by
  intro i cs
  induction cs generalizing i with
  | nil =>
    intro _ c hc
    simp [recover_cards] at hc
  | cons hd tl ih =>
    intro hok c hc
    unfold recover_cards at hok hc
    by_cases hcase : (hd || opens i) = true
    · rw [if_pos hcase] at hok hc
      simp only [List.mem_cons] at hc
      rcases hc with hc | hc
      · exact hc
      · exact ih (i + 1) hok c hc
    · rw [if_neg hcase] at hok
      simp at hok

end ModuleJack

/-- C4 counterexample: the state reached by shutdown followed by a
partially successful recovery attempt (first client reopens, second open
fails) is reachable, has `stoped = true`, yet its first card's external
client handle is non-NULL — so the invariant `stopped ⇒ every card's
external client handle is null` does not hold in every reachable state. -/
theorem C4_invariant_counterexample :
    ModuleJack.Reachable ModuleJack.c4BadState
    ∧ ¬ (ModuleJack.c4BadState.stoped = true →
          ∀ c ∈ ModuleJack.c4BadState.cards, c = false) := by
  constructor
  · exact ModuleJack.Reachable.recover (fun i => i == 0) 1000000
      (ModuleJack.Reachable.shutdown 0 (ModuleJack.Reachable.init 2))
  · decide

/-- C4 (amended): the shutdown callback sets `stopped = true`, nulls
every card's handle and arms the recover timer at now + 1s; a recovery
attempt in which some open fails re-arms the timer at now + 5s and
leaves `stopped = true`, but leaves the clients it already reopened
non-null (so the invariant can be violated after a partial recovery);
and `stopped` becomes false only when every card's client has been
reopened. -/
theorem C4_recovery_amended (now : Nat) (s : ModuleJack.BridgeState)
    (opens : Nat → Bool) (h : s.stoped = true) :
    (ModuleJack.jack_shutdown now s).stoped = true
    ∧ (∀ c ∈ (ModuleJack.jack_shutdown now s).cards, c = false)
    ∧ (ModuleJack.jack_shutdown now s).recoverAt = some (now + 1000000)
    ∧ ((ModuleJack.recover_cards opens 0 s.cards).2 = false →
        (ModuleJack.recover_cb opens now s).stoped = true
        ∧ (ModuleJack.recover_cb opens now s).recoverAt = some (now + 5 * 1000000))
    ∧ ((ModuleJack.recover_cb opens now s).stoped = false →
        ∀ c ∈ (ModuleJack.recover_cb opens now s).cards, c = true) := by
  refine ⟨rfl, ?_, rfl, ?_, ?_⟩
  · intro c hc
    simp only [ModuleJack.jack_shutdown, List.mem_map] at hc
    obtain ⟨_, _, hc⟩ := hc
    exact hc.symm
  · intro hfail
    unfold ModuleJack.recover_cb
    rw [h]
    simp only [Bool.not_true, Bool.false_eq_true, if_false]
    rw [if_neg (by rw [hfail]; exact Bool.false_ne_true)]
    exact ⟨rfl, rfl⟩
  · intro hstop
    unfold ModuleJack.recover_cb at hstop ⊢
    rw [h] at hstop ⊢
    simp only [Bool.not_true, Bool.false_eq_true, if_false] at hstop ⊢
    by_cases hok : (ModuleJack.recover_cards opens 0 s.cards).2 = true
    · rw [if_pos hok] at hstop ⊢
      exact ModuleJack.recover_cards_all_open opens 0 s.cards hok
    · rw [if_neg hok] at hstop
      simp at hstop

/-- Witness for C4 (amended) at a concrete stopped one-card state. -/
theorem C4_recovery_amended_witness :
    (ModuleJack.jack_shutdown 0
        { stoped := true, cards := [false], recoverAt := none }).stoped = true
    ∧ (∀ c ∈ (ModuleJack.jack_shutdown 0
        { stoped := true, cards := [false], recoverAt := none }).cards, c = false)
    ∧ (ModuleJack.jack_shutdown 0
        { stoped := true, cards := [false], recoverAt := none }).recoverAt
        = some (0 + 1000000)
    ∧ ((ModuleJack.recover_cards (fun _ => false) 0
          ({ stoped := true, cards := [false], recoverAt := none }
            : ModuleJack.BridgeState).cards).2 = false →
        (ModuleJack.recover_cb (fun _ => false) 0
          { stoped := true, cards := [false], recoverAt := none }).stoped = true
        ∧ (ModuleJack.recover_cb (fun _ => false) 0
          { stoped := true, cards := [false], recoverAt := none }).recoverAt
          = some (0 + 5 * 1000000))
    ∧ ((ModuleJack.recover_cb (fun _ => false) 0
          { stoped := true, cards := [false], recoverAt := none }).stoped = false →
        ∀ c ∈ (ModuleJack.recover_cb (fun _ => false) 0
          { stoped := true, cards := [false], recoverAt := none }).cards, c = true) :=
  C4_recovery_amended 0 { stoped := true, cards := [false], recoverAt := none }
    (fun _ => false) rfl

namespace ModuleJack

/-! ## Delayed card teardown (module-jack.c:686-693, 926-941) -/

/-- The card state the teardown path touches: whether a sink/source is
present, the sizes of `sink->inputs` and `source->outputs` (the host
stream sets `timeout_cb` inspects), the armed time of the teardown timer
`card->time_event` (`none` = disarmed), and whether the card has been
destroyed (the `forced` branch of `unload_card`). -/
structure TeardownCard where
  hasSink : Bool
  sinkInputs : Nat
  hasSource : Bool
  sourceOutputs : Nat
  timerAt : Option Nat
  destroyed : Bool
deriving Repr, DecidableEq

/-- `unload_card(card, forced)` restricted to the state above.  With
`forced = false` it re-arms the teardown timer at `now + base->delay`
when `delay > 0` and returns without doing anything when `delay = 0`;
with `forced = true` it tears the card down (moves surviving streams to
the default, unlinks, closes the client, joins the worker, frees the
timer and queues, and removes the card from `base->cards`), modelled as
`destroyed := true` with the timer freed. -/
def unload_card (card : TeardownCard) (forced : Bool) (now delay : Nat) : TeardownCard :=
  if !forced then
    if delay > 0 then { card with timerAt := some (now + delay) } else card
  else
    { card with destroyed := true, timerAt := none }

/-- `timeout_cb`: disarms the timer, returns if the card's sink still
has inputs or its source still has outputs, and otherwise calls
`unload_card(card, true)`. -/
def timeout_cb (card : TeardownCard) (now delay : Nat) : TeardownCard :=
  let card := { card with timerAt := none }
  if card.hasSink && card.sinkInputs > 0 then card
  else if card.hasSource && card.sourceOutputs > 0 then card
  else unload_card card true now delay

end ModuleJack

/-- C5: `unload_card(forced=false)` arms the teardown timer at
`now + delay` when `delay > 0` and leaves the card unchanged when
`delay = 0`; when the timer fires, the card is destroyed exactly when
its stream sets are still empty (no sink inputs and no source outputs),
and survives when any stream attached in the meantime. -/
theorem C5_delayed_teardown (card : ModuleJack.TeardownCard) (now delay : Nat)
    (hd : card.destroyed = false) :
    (delay > 0 →
      ModuleJack.unload_card card false now delay = { card with timerAt := some (now + delay) })
    ∧ (delay = 0 → ModuleJack.unload_card card false now delay = card)
    ∧ ((ModuleJack.timeout_cb card now delay).destroyed = true ↔
        ¬ (card.hasSink = true ∧ 0 < card.sinkInputs)
        ∧ ¬ (card.hasSource = true ∧ 0 < card.sourceOutputs)) := by
  refine ⟨?_, ?_, ?_⟩
  · intro hdelay
    unfold ModuleJack.unload_card
    rw [if_pos (by decide), if_pos hdelay]
  · intro hdelay
    unfold ModuleJack.unload_card
    rw [if_pos (by decide), if_neg (by omega)]
  · unfold ModuleJack.timeout_cb ModuleJack.unload_card
    by_cases h1 : card.hasSink && card.sinkInputs > 0
    · rw [if_pos h1]
      simp only [hd]
      constructor
      · intro hfalse
        exact absurd hfalse (by simp)
      · intro ⟨ha, _⟩
        rw [Bool.and_eq_true] at h1
        exact absurd ⟨h1.1, by simpa using h1.2⟩ ha
    · rw [if_neg h1]
      by_cases h2 : card.hasSource && card.sourceOutputs > 0
      · rw [if_pos h2]
        simp only [hd]
        constructor
        · intro hfalse
          exact absurd hfalse (by simp)
        · intro ⟨_, hb⟩
          rw [Bool.and_eq_true] at h2
          exact absurd ⟨h2.1, by simpa using h2.2⟩ hb
      · rw [if_neg h2]
        simp only [Bool.not_true, Bool.false_eq_true, if_false]
        constructor
        · intro _
          rw [Bool.and_eq_true] at h1 h2
          constructor
          · intro ⟨ha, hb⟩
            exact h1 ⟨ha, by simpa using hb⟩
          · intro ⟨ha, hb⟩
            exact h2 ⟨ha, by simpa using hb⟩
        · intro _
          trivial

/-- Witness for C5 at a concrete idle card with a sink and no streams. -/
theorem C5_delayed_teardown_witness :
    ((5000000 : Nat) > 0 →
      ModuleJack.unload_card
        { hasSink := true, sinkInputs := 0, hasSource := false,
          sourceOutputs := 0, timerAt := none, destroyed := false }
        false 100 5000000
      = { hasSink := true, sinkInputs := 0, hasSource := false,
          sourceOutputs := 0, timerAt := some (100 + 5000000), destroyed := false })
    ∧ ((5000000 : Nat) = 0 →
      ModuleJack.unload_card
        { hasSink := true, sinkInputs := 0, hasSource := false,
          sourceOutputs := 0, timerAt := none, destroyed := false }
        false 100 5000000
      = { hasSink := true, sinkInputs := 0, hasSource := false,
          sourceOutputs := 0, timerAt := none, destroyed := false })
    ∧ ((ModuleJack.timeout_cb
        { hasSink := true, sinkInputs := 0, hasSource := false,
          sourceOutputs := 0, timerAt := none, destroyed := false }
        100 5000000).destroyed = true ↔
        ¬ ((true : Bool) = true ∧ (0 : Nat) < 0)
        ∧ ¬ ((false : Bool) = true ∧ (0 : Nat) < 0)) :=
  C5_delayed_teardown
    { hasSink := true, sinkInputs := 0, hasSource := false,
      sourceOutputs := 0, timerAt := none, destroyed := false }
    100 5000000 rfl

namespace ModuleJack

/-! ## Merge policy and the put hooks (module-jack.c:748-759, 790-834) -/

/-- A host property list; `pa_proplist_gets` returns the first entry for
the key, or NULL when the key is absent. -/
abbrev Proplist := List (String × String)

def pa_proplist_gets (p : Proplist) (key : String) : Option String :=
  (p.find? fun kv => kv.1 == key).map Prod.snd

def PA_PROP_APPLICATION_PROCESS_ID : String := "application.process.id"

def PA_PROP_APPLICATION_PROCESS_BINARY : String := "application.process.binary"

def PA_PROP_APPLICATION_NAME : String := "application.name"

/-- `get_merge_ref`: switches on `base->merge`; policies 1/2/3 return
`pa_strnull` of the corresponding property (never NULL), every other
value (policy 0 = none included) returns NULL. -/
def get_merge_ref (merge : Nat) (p : Proplist) : Option String :=
  match merge with
  | 1 => some (pa_strnull (pa_proplist_gets p PA_PROP_APPLICATION_PROCESS_ID))
  | 2 => some (pa_strnull (pa_proplist_gets p PA_PROP_APPLICATION_PROCESS_BINARY))
  | 3 => some (pa_strnull (pa_proplist_gets p PA_PROP_APPLICATION_NAME))
  | _ => none

/-- The property key each merge policy reads (the cases of the switch in
`get_merge_ref`). -/
def merge_prop_key : Nat → String
  | 1 => PA_PROP_APPLICATION_PROCESS_ID
  | 2 => PA_PROP_APPLICATION_PROCESS_BINARY
  | 3 => PA_PROP_APPLICATION_NAME
  | _ => ""

/-- The card state the sink put hook touches: its merge key, whether it
has a sink bridge, and its recorded input streams (`card->inputs`). -/
structure PutCard where
  merge_ref : Option String
  hasSink : Bool
  inputs : List Nat
deriving Repr, DecidableEq

/-- Outcome of one `sink_put_hook_callback` run.  `nullDeref` marks the
handler reaching `strlen(merge_ref)` with `merge_ref == NULL`
(module-jack.c:824), which is undefined behavior. -/
inductive PutOutcome where
  | ignored
  | movedToExisting (idx : Nat)
  | attached (idx : Nat) (isNew : Bool)
  | nullDeref
deriving Repr, DecidableEq

/-- `PA_IDXSET_FOREACH` scan for the first card whose `merge_ref` is
non-NULL and string-equal to `m`. -/
def find_merge_card (cards : List PutCard) (m : String) : Option Nat :=
  cards.findIdx? fun c => c.merge_ref == some m

/-- `sink_put_hook_callback`.  Ignores the event when the core is not
RUNNING or the stream is flagged DONT_MOVE.  Otherwise computes the
merge key; if a card with an equal key exists and has a sink, the stream
is moved onto it and recorded; if it exists without a sink, the sink
bridge is added to it; otherwise a fresh card is created.  On the
fresh-card and added-bridge paths the handler then copies `merge_ref`
with `malloc(strlen(merge_ref)+1)` — with merge policy none the key is
NULL at that point and `strlen(NULL)` is undefined behavior
(`nullDeref`), reached after the new card was created and the stream
recorded. -/
def sink_put_hook (coreRunning dontMove : Bool) (merge : Nat) (p : Proplist)
    (streamId : Nat) (cards : List PutCard) : PutOutcome × List PutCard :=
  if !coreRunning || dontMove then (PutOutcome.ignored, cards)
  else
    match get_merge_ref merge p with
    | some m =>
      match find_merge_card cards m with
      | some idx =>
        let c := cards.getD idx { merge_ref := none, hasSink := false, inputs := [] }
        if c.hasSink then
          (PutOutcome.movedToExisting idx,
           cards.set idx { c with inputs := c.inputs ++ [streamId] })
        else
          (PutOutcome.attached idx false,
           cards.set idx
             { c with
                 merge_ref := some m
                 hasSink := true
                 inputs := c.inputs ++ [streamId] })
      | none =>
        (PutOutcome.attached cards.length true,
         cards ++ [{ merge_ref := some m, hasSink := true, inputs := [streamId] }])
    | none =>
      (PutOutcome.nullDeref,
       cards ++ [{ merge_ref := none, hasSink := true, inputs := [streamId] }])

end ModuleJack

/-- C6: policies `by_pid`/`by_binary`/`by_app_name` key on
`application.process.id` / `application.process.binary` /
`application.name` respectively, and policy `none` yields no merge key —
but with policy none the put handler, after creating the stream's own
fresh card, reaches `strlen(merge_ref)` with `merge_ref == NULL`
(undefined behavior), so it does not complete normally: shown here on a
RUNNING core with a movable stream. -/
theorem C6_merge_policy_none_crashes :
    (∀ p : ModuleJack.Proplist, ModuleJack.get_merge_ref 1 p
      = some (ModuleJack.pa_strnull
          (ModuleJack.pa_proplist_gets p ModuleJack.PA_PROP_APPLICATION_PROCESS_ID)))
    ∧ (∀ p : ModuleJack.Proplist, ModuleJack.get_merge_ref 2 p
      = some (ModuleJack.pa_strnull
          (ModuleJack.pa_proplist_gets p ModuleJack.PA_PROP_APPLICATION_PROCESS_BINARY)))
    ∧ (∀ p : ModuleJack.Proplist, ModuleJack.get_merge_ref 3 p
      = some (ModuleJack.pa_strnull
          (ModuleJack.pa_proplist_gets p ModuleJack.PA_PROP_APPLICATION_NAME)))
    ∧ (∀ p : ModuleJack.Proplist, ModuleJack.get_merge_ref 0 p = none)
    ∧ ModuleJack.sink_put_hook true false 0
        [(ModuleJack.PA_PROP_APPLICATION_NAME, "foo")] 7 []
      = (ModuleJack.PutOutcome.nullDeref,
         [{ merge_ref := none, hasSink := true, inputs := [7] }]) :=
  ⟨fun _ => rfl, fun _ => rfl, fun _ => rfl, fun _ => rfl, rfl⟩

/-- C10: for policies 1/2/3, `get_merge_ref` never returns NULL — a
stream whose property list lacks the policy's property gets the literal
key `"(null)"` — so two streams that both lack the property receive
equal merge keys, and handling the first (on an empty card set) followed
by the second routes the second onto the card created for the first
instead of creating another card. -/
theorem C10_missing_property_merges (merge : Nat) (p q : ModuleJack.Proplist)
    (s1 s2 : Nat) (hm : merge = 1 ∨ merge = 2 ∨ merge = 3)
    (hp : ModuleJack.pa_proplist_gets p (ModuleJack.merge_prop_key merge) = none)
    (hq : ModuleJack.pa_proplist_gets q (ModuleJack.merge_prop_key merge) = none) :
    ModuleJack.get_merge_ref merge p = some "(null)"
    ∧ ModuleJack.get_merge_ref merge p = ModuleJack.get_merge_ref merge q
    ∧ ModuleJack.sink_put_hook true false merge q s2
        (ModuleJack.sink_put_hook true false merge p s1 []).2
      = (ModuleJack.PutOutcome.movedToExisting 0,
         [{ merge_ref := some "(null)", hasSink := true, inputs := [s1, s2] }]) := by
  have hkp : ModuleJack.get_merge_ref merge p = some "(null)" := by
    rcases hm with h | h | h <;> subst h <;>
      simp [ModuleJack.get_merge_ref, ModuleJack.merge_prop_key] at hp ⊢ <;>
      rw [hp] <;> rfl
  have hkq : ModuleJack.get_merge_ref merge q = some "(null)" := by
    rcases hm with h | h | h <;> subst h <;>
      simp [ModuleJack.get_merge_ref, ModuleJack.merge_prop_key] at hq ⊢ <;>
      rw [hq] <;> rfl
  refine ⟨hkp, by rw [hkp, hkq], ?_⟩
  have hfirst : ModuleJack.sink_put_hook true false merge p s1 []
      = (ModuleJack.PutOutcome.attached 0 true,
         [{ merge_ref := some "(null)", hasSink := true, inputs := [s1] }]) := by
    unfold ModuleJack.sink_put_hook
    rw [hkp]
    rfl
  rw [hfirst]
  unfold ModuleJack.sink_put_hook
  rw [hkq]
  rfl

/-- Witness for C10 at merge policy 1 and two empty property lists. -/
theorem C10_missing_property_merges_witness :
    ModuleJack.get_merge_ref 1 [] = some "(null)"
    ∧ ModuleJack.get_merge_ref 1 [] = ModuleJack.get_merge_ref 1 []
    ∧ ModuleJack.sink_put_hook true false 1 [] 8
        (ModuleJack.sink_put_hook true false 1 [] 7 []).2
      = (ModuleJack.PutOutcome.movedToExisting 0,
         [{ merge_ref := some "(null)", hasSink := true, inputs := [7, 8] }]) :=
  C10_missing_property_merges 1 [] [] 7 8 (Or.inl rfl) rfl rfl

namespace ModuleJack

/-! ## The server_name option (module-jack.h:11, module-jack.c:994-996, 414-424) -/

/-- `struct sBase` declares the field as `char server_name` (a single
character, zero-initialized by `pa_xnew0`); `pa__init` stores
`*server_name`, the first character of the option string (or leaves 0
when the option is unset) — and `create_jack` passes that single `char`
to `jack_client_open`. -/
def stored_server_name (opt : Option String) : Char :=
  match opt with
  | none => Char.ofNat 0
  | some s => s.data.headD (Char.ofNat 0)

end ModuleJack

/-- C9: the module does not store the full `server_name` option string:
for the option `"foo"` only the character `'f'` survives, and the
options `"foo"` and `"far"` — distinct strings — are stored identically,
so the external client open call cannot receive the full string. -/
theorem C9_server_name_truncated :
    ModuleJack.stored_server_name (some "foo") = 'f'
    ∧ ModuleJack.stored_server_name (some "foo")
        = ModuleJack.stored_server_name (some "far")
    ∧ "foo" ≠ "far" := by
  refine ⟨rfl, rfl, ?_⟩
  decide
